import Mathlib

/-
Verification of the go-msmq client binding (package msmq).

The development shallowly embeds the Go source: the COM automation objects
behind `ole.IDispatch` are modelled as oracles (a result for the `IsOpen2`
property and a function from method name and positional arguments to a
result), and each Go method becomes a Lean function from the oracle and the
caller-supplied arguments to a result together with the list of calls it
issued to the underlying service.  Go errors are modelled by their message
text (`fmt.Errorf` with `%w` concatenates the new context in front of the
wrapped error's text).  Go strings that carry payload data (message bodies,
path names) are modelled as their byte sequences, since a Go string is a
byte sequence and `string(b)` for a byte slice `b` is the identity on bytes.
-/

namespace GoMsmq

/-- Text of a Go error value, as returned by its `Error()` method. -/
abbrev GoErr := String

/-- Byte sequence of a Go string (payload data such as message bodies). -/
abbrev GoStr := List UInt8

/-- Payload of a COM VARIANT, restricted to the shapes the source touches. -/
inductive VarValue where
  | vstr (s : GoStr)
  | vbytes (b : List UInt8)
  | vdisp (d : Nat)
  | vbool (b : Bool)
  | vempty
  deriving DecidableEq, Repr

/-- COM VARIANT: a type tag bitmask together with a payload. -/
structure VARIANT where
  vt : Nat
  val : VarValue
  deriving DecidableEq, Repr

/-- VT_EMPTY type tag from go-ole. -/
def VT_EMPTY : Nat := 0

/-- VT_BSTR type tag from go-ole. -/
def VT_BSTR : Nat := 8

/-- VT_ARRAY type-tag bit flag from go-ole (0x2000). -/
def VT_ARRAY : Nat := 8192

/-- Result of go-ole `VARIANT.ToIDispatch`: the dispatch pointer when the
payload is a dispatch interface, nil (`none`) otherwise. -/
def VARIANT.toIDispatch : VARIANT → Option Nat
  | ⟨_, VarValue.vdisp d⟩ => some d
  | _ => none

/-- Positional argument passed to `IDispatch.CallMethod`. -/
inductive Arg where
  | ofBool (b : Bool)
  | ofInt (n : Int)
  | ofU64 (n : Nat)
  deriving DecidableEq, Repr

/-- One call issued to the underlying COM service: method name and
positional arguments. -/
structure SvcCall where
  method : String
  args : List Arg
  deriving DecidableEq, Repr

/-- Outcome of a Go function that returns a value and an error, extended
with the two abnormal shapes the dispatcher code can produce: `nilNil`
for the `default` branch of the `peek`/`receive` switch (which returns
neither a value nor an error) and `panic` for a failed type assertion or
a nil-pointer dereference. -/
inductive GoResult (α : Type) where
  | ok (a : α)
  | error (e : GoErr)
  | panic
  deriving DecidableEq, Repr

/-- Outcome of the internal `peek`/`receive` dispatcher, before the
exported wrapper converts it to a `Message`. -/
inductive DispatchOutcome where
  | ok (v : VARIANT)
  | error (e : GoErr)
  | nilNil
  | panic
  deriving DecidableEq, Repr

/-- Conversion of a service-call result to a dispatcher outcome. -/
def outcomeOfCall : Except GoErr VARIANT → DispatchOutcome
  | .ok v => .ok v
  | .error e => .error e

/-- Oracle for the COM IDispatch behind an open queue: the value of the
`IsOpen2` property (already unwrapped to the asserted `bool`) and the
behaviour of `CallMethod` per method name and argument list. -/
structure IDispatchQ where
  isOpen2 : Except GoErr Bool
  call : String → List Arg → Except GoErr VARIANT

/-- Queue represents an instance of an open queue (queue.go). -/
structure Queue where
  dispatch : IDispatchQ

/-- Message value built by the retrieval wrappers: holds the dispatch
pointer extracted from the returned VARIANT (queue.go / message.go). -/
structure Message where
  dispatch : Option Nat
  deriving DecidableEq, Repr

/-- PeekOption (queue.go): each exported constructor closes over one field
update of `peekOptions`; embedded as a tag carrying the value. -/
inductive PeekOptionT where
  | withWantDestinationQueue (want : Bool)
  | withWantBody (want : Bool)
  | withTimeout (timeout : Int)
  | withWantConnectorType (want : Bool)
  deriving DecidableEq, Repr

/-- peekOptions (queue.go): all the options to peek messages in a queue. -/
structure peekOptions where
  wantDestinationQueue : Bool
  wantBody : Bool
  timeout : Int
  wantConnectorType : Bool
  deriving DecidableEq, Repr

/-- Action of a `PeekOption`'s `set` closure on the options struct. -/
def PeekOptionT.set : PeekOptionT → peekOptions → peekOptions
  | .withWantDestinationQueue w, o => ⟨w, o.wantBody, o.timeout, o.wantConnectorType⟩
  | .withWantBody w, o => ⟨o.wantDestinationQueue, w, o.timeout, o.wantConnectorType⟩
  | .withTimeout t, o => ⟨o.wantDestinationQueue, o.wantBody, t, o.wantConnectorType⟩
  | .withWantConnectorType w, o => ⟨o.wantDestinationQueue, o.wantBody, o.timeout, w⟩

/-- PeekWithWantDestinationQueue (queue.go). -/
def PeekWithWantDestinationQueue (want : Bool) : PeekOptionT :=
  .withWantDestinationQueue want

/-- PeekWithWantBody (queue.go). -/
def PeekWithWantBody (want : Bool) : PeekOptionT := .withWantBody want

/-- PeekWithTimeout (queue.go). -/
def PeekWithTimeout (timeout : Int) : PeekOptionT := .withTimeout timeout

/-- PeekWithWantConnectorType (queue.go). -/
def PeekWithWantConnectorType (want : Bool) : PeekOptionT :=
  .withWantConnectorType want

/-- Defaults of `peekOptions` as written in the `peek` dispatcher:
wantDestinationQueue false, wantBody true, timeout 1<<31 - 1,
wantConnectorType false. -/
def peekDefaults : peekOptions := ⟨false, true, 2147483647, false⟩

/-- PeekByLookupIDOption (queue.go), embedded like `PeekOptionT`. -/
inductive PeekByLookupIDOptionT where
  | withWantDestinationQueue (want : Bool)
  | withWantBody (want : Bool)
  | withWantConnectorType (want : Bool)
  deriving DecidableEq, Repr

/-- peekByLookupIDOptions (queue.go). -/
structure peekByLookupIDOptions where
  wantDestinationQueue : Bool
  wantBody : Bool
  wantConnectorType : Bool
  deriving DecidableEq, Repr

/-- Action of a `PeekByLookupIDOption`'s `set` closure. -/
def PeekByLookupIDOptionT.set :
    PeekByLookupIDOptionT → peekByLookupIDOptions → peekByLookupIDOptions
  | .withWantDestinationQueue w, o => ⟨w, o.wantBody, o.wantConnectorType⟩
  | .withWantBody w, o => ⟨o.wantDestinationQueue, w, o.wantConnectorType⟩
  | .withWantConnectorType w, o => ⟨o.wantDestinationQueue, o.wantBody, w⟩

/-- Defaults of `peekByLookupIDOptions` as written in the dispatcher. -/
def peekByLookupIDDefaults : peekByLookupIDOptions := ⟨false, true, false⟩

/-- TransactionLevel (msmq.go): iota order NoTransaction, MTS, XA,
SingleMessage. -/
inductive TransactionLevel where
  | NoTransaction
  | MTS
  | XA
  | SingleMessage
  deriving DecidableEq, Repr

/-- Numeric value of a transaction level (Go `int(level)`). -/
def TransactionLevel.toInt : TransactionLevel → Int
  | .NoTransaction => 0
  | .MTS => 1
  | .XA => 2
  | .SingleMessage => 3

/-- ReceiveOption (queue.go), embedded like `PeekOptionT`. -/
inductive ReceiveOptionT where
  | withTransaction (level : TransactionLevel)
  | withWantDestinationQueue (want : Bool)
  | withWantBody (want : Bool)
  | withTimeout (timeout : Int)
  | withWantConnectorType (want : Bool)
  deriving DecidableEq, Repr

/-- receiveOptions (queue.go). -/
structure receiveOptions where
  level : TransactionLevel
  wantDestinationQueue : Bool
  wantBody : Bool
  timeout : Int
  wantConnectorType : Bool
  deriving DecidableEq, Repr

/-- Action of a `ReceiveOption`'s `set` closure. -/
def ReceiveOptionT.set : ReceiveOptionT → receiveOptions → receiveOptions
  | .withTransaction l, o =>
      ⟨l, o.wantDestinationQueue, o.wantBody, o.timeout, o.wantConnectorType⟩
  | .withWantDestinationQueue w, o =>
      ⟨o.level, w, o.wantBody, o.timeout, o.wantConnectorType⟩
  | .withWantBody w, o =>
      ⟨o.level, o.wantDestinationQueue, w, o.timeout, o.wantConnectorType⟩
  | .withTimeout t, o =>
      ⟨o.level, o.wantDestinationQueue, o.wantBody, t, o.wantConnectorType⟩
  | .withWantConnectorType w, o =>
      ⟨o.level, o.wantDestinationQueue, o.wantBody, o.timeout, w⟩

/-- Defaults of `receiveOptions` as written in the `receive` dispatcher:
level MTS, wantDestinationQueue false, wantBody true, timeout 1<<31 - 1,
wantConnectorType false. -/
def receiveDefaults : receiveOptions := ⟨.MTS, false, true, 2147483647, false⟩

/-- ReceiveByLookupIDOption (queue.go), embedded like `PeekOptionT`. -/
inductive ReceiveByLookupIDOptionT where
  | withTransaction (level : TransactionLevel)
  | withWantDestinationQueue (want : Bool)
  | withWantBody (want : Bool)
  | withWantConnectorType (want : Bool)
  deriving DecidableEq, Repr

/-- receiveByLookupIDOptions (queue.go). -/
structure receiveByLookupIDOptions where
  level : TransactionLevel
  wantDestinationQueue : Bool
  wantBody : Bool
  wantConnectorType : Bool
  deriving DecidableEq, Repr

/-- Action of a `ReceiveByLookupIDOption`'s `set` closure. -/
def ReceiveByLookupIDOptionT.set :
    ReceiveByLookupIDOptionT → receiveByLookupIDOptions → receiveByLookupIDOptions
  | .withTransaction l, o => ⟨l, o.wantDestinationQueue, o.wantBody, o.wantConnectorType⟩
  | .withWantDestinationQueue w, o => ⟨o.level, w, o.wantBody, o.wantConnectorType⟩
  | .withWantBody w, o => ⟨o.level, o.wantDestinationQueue, w, o.wantConnectorType⟩
  | .withWantConnectorType w, o => ⟨o.level, o.wantDestinationQueue, o.wantBody, w⟩

/-- Defaults of `receiveByLookupIDOptions` as written in the dispatcher. -/
def receiveByLookupIDDefaults : receiveByLookupIDOptions := ⟨.MTS, false, true, false⟩

/-- Untyped value passed through the `params ...interface{}` list of the
internal `peek`/`receive` dispatchers. -/
inductive GoVal where
  | peekOpts (l : List PeekOptionT)
  | peekByIDOpts (l : List PeekByLookupIDOptionT)
  | recvOpts (l : List ReceiveOptionT)
  | recvByIDOpts (l : List ReceiveByLookupIDOptionT)
  | ofU64 (n : Nat)

/-- Error text produced when the open check reports the queue closed
(queue.go, `peek`, `receive` and `Purge`). -/
def notOpenErr : GoErr := "Exception occurred. (The queue is not open or might not exist. )"

/-- Queue.IsOpen (queue.go): reads the `IsOpen2` property and wraps a
read failure. -/
def Queue.IsOpen (q : Queue) : Except GoErr Bool :=
  match q.dispatch.isOpen2 with
  | .error e => .error ("go-msmq: IsOpen() failed to get IsOpen2: " ++ e)
  | .ok b => .ok b

/-- Materialization of `peekOptions` from the declared defaults, applying
the supplied options in declaration order (the `for` loop of the
dispatcher's first case). -/
def buildPeekOptions (opts : List PeekOptionT) : peekOptions :=
  opts.foldl (fun acc o => o.set acc) peekDefaults

/-- Materialization of `peekByLookupIDOptions` from the declared defaults. -/
def buildPeekByLookupIDOptions (opts : List PeekByLookupIDOptionT) :
    peekByLookupIDOptions :=
  opts.foldl (fun acc o => o.set acc) peekByLookupIDDefaults

/-- Materialization of `receiveOptions` from the declared defaults. -/
def buildReceiveOptions (opts : List ReceiveOptionT) : receiveOptions :=
  opts.foldl (fun acc o => o.set acc) receiveDefaults

/-- Materialization of `receiveByLookupIDOptions` from the declared defaults. -/
def buildReceiveByLookupIDOptions (opts : List ReceiveByLookupIDOptionT) :
    receiveByLookupIDOptions :=
  opts.foldl (fun acc o => o.set acc) receiveByLookupIDDefaults

/-- Positional argument list the dispatcher passes for the plain peek
actions (Peek, PeekCurrent, PeekNext). -/
def peekArgsList (o : peekOptions) : List Arg :=
  [Arg.ofBool o.wantDestinationQueue, Arg.ofBool o.wantBody,
   Arg.ofInt o.timeout, Arg.ofBool o.wantConnectorType]

/-- Positional argument list for the identifier-addressed peek actions. -/
def peekByIDArgsList (id : Nat) (o : peekByLookupIDOptions) : List Arg :=
  [Arg.ofU64 id, Arg.ofBool o.wantDestinationQueue, Arg.ofBool o.wantBody,
   Arg.ofBool o.wantConnectorType]

/-- Positional argument list for PeekFirstByLookupID / PeekLastByLookupID. -/
def peekFirstLastArgsList (o : peekByLookupIDOptions) : List Arg :=
  [Arg.ofBool o.wantDestinationQueue, Arg.ofBool o.wantBody,
   Arg.ofBool o.wantConnectorType]

/-- Positional argument list for Receive / ReceiveCurrent. -/
def receiveArgsList (o : receiveOptions) : List Arg :=
  [Arg.ofInt o.level.toInt, Arg.ofBool o.wantDestinationQueue, Arg.ofBool o.wantBody,
   Arg.ofInt o.timeout, Arg.ofBool o.wantConnectorType]

/-- Positional argument list for the identifier-addressed receive actions. -/
def receiveByIDArgsList (id : Nat) (o : receiveByLookupIDOptions) : List Arg :=
  [Arg.ofU64 id, Arg.ofInt o.level.toInt, Arg.ofBool o.wantDestinationQueue,
   Arg.ofBool o.wantBody, Arg.ofBool o.wantConnectorType]

/-- Positional argument list for ReceiveFirstByLookupID / ReceiveLastByLookupID. -/
def receiveFirstLastArgsList (o : receiveByLookupIDOptions) : List Arg :=
  [Arg.ofInt o.level.toInt, Arg.ofBool o.wantDestinationQueue,
   Arg.ofBool o.wantBody, Arg.ofBool o.wantConnectorType]

/-- Internal peek dispatcher (queue.go, func (q *Queue) peek).  Returns the
outcome together with the list of calls issued to the underlying service. -/
def Queue.peek (q : Queue) (action : String) (params : List GoVal) :
    DispatchOutcome × List SvcCall :=
  match Queue.IsOpen q with
  | .error e => (.error e, [])
  | .ok false => (.error notOpenErr, [])
  | .ok true =>
    if action = "Peek" ∨ action = "PeekCurrent" ∨ action = "PeekNext" then
      match params.get? 0 with
      | some (GoVal.peekOpts opts) =>
        let o := opts.foldl (fun acc p => p.set acc) peekDefaults
        let args := peekArgsList o
        (outcomeOfCall (q.dispatch.call action args), [⟨action, args⟩])
      | _ => (.panic, [])
    else if action = "PeekByLookupID" ∨ action = "PeekNextByLookupID" ∨
        action = "PeekPreviousByLookupID" then
      match params.get? 0, params.get? 1 with
      | some (GoVal.ofU64 id), some (GoVal.peekByIDOpts opts) =>
        let o := opts.foldl (fun acc p => p.set acc) peekByLookupIDDefaults
        let args := peekByIDArgsList id o
        (outcomeOfCall (q.dispatch.call action args), [⟨action, args⟩])
      | _, _ => (.panic, [])
    else if action = "PeekFirstByLookupID" ∨ action = "PeekLastByLookupID" then
      match params.get? 0 with
      | some (GoVal.peekByIDOpts opts) =>
        let o := opts.foldl (fun acc p => p.set acc) peekByLookupIDDefaults
        let args := peekFirstLastArgsList o
        (outcomeOfCall (q.dispatch.call action args), [⟨action, args⟩])
      | _ => (.panic, [])
    else
      (.nilNil, [])

/-- Internal receive dispatcher (queue.go, func (q *Queue) receive). -/
def Queue.receive (q : Queue) (action : String) (params : List GoVal) :
    DispatchOutcome × List SvcCall :=
  match Queue.IsOpen q with
  | .error e => (.error e, [])
  | .ok false => (.error notOpenErr, [])
  | .ok true =>
    if action = "Receive" ∨ action = "ReceiveCurrent" then
      match params.get? 0 with
      | some (GoVal.recvOpts opts) =>
        let o := opts.foldl (fun acc p => p.set acc) receiveDefaults
        let args := receiveArgsList o
        (outcomeOfCall (q.dispatch.call action args), [⟨action, args⟩])
      | _ => (.panic, [])
    else if action = "ReceiveByLookupID" ∨ action = "ReceiveNextByLookupID" ∨
        action = "ReceivePreviousByLookupID" then
      match params.get? 0, params.get? 1 with
      | some (GoVal.ofU64 id), some (GoVal.recvByIDOpts opts) =>
        let o := opts.foldl (fun acc p => p.set acc) receiveByLookupIDDefaults
        let args := receiveByIDArgsList id o
        (outcomeOfCall (q.dispatch.call action args), [⟨action, args⟩])
      | _, _ => (.panic, [])
    else if action = "ReceiveFirstByLookupID" ∨ action = "ReceiveLastByLookupID" then
      match params.get? 0 with
      | some (GoVal.recvByIDOpts opts) =>
        let o := opts.foldl (fun acc p => p.set acc) receiveByLookupIDDefaults
        let args := receiveFirstLastArgsList o
        (outcomeOfCall (q.dispatch.call action args), [⟨action, args⟩])
      | _ => (.panic, [])
    else
      (.nilNil, [])

/-- Conversion of a dispatcher outcome to the exported method's result:
a success builds `Message{dispatch: msg.ToIDispatch()}`, an error is
transformed by the method's wrapping, and the two abnormal outcomes
dereference a nil `*ole.VARIANT`, which panics. -/
def toMessageResult (wrap : GoErr → GoErr) : DispatchOutcome → GoResult Message
  | .ok v => .ok ⟨v.toIDispatch⟩
  | .error e => .error (wrap e)
  | .nilNil => .panic
  | .panic => .panic

/-- Queue.Peek (queue.go): returns the dispatcher error unchanged. -/
def Queue.Peek (q : Queue) (opts : List PeekOptionT) : GoResult Message × List SvcCall :=
  let p := Queue.peek q ("Peek") [GoVal.peekOpts opts]
  (toMessageResult (fun e => e) p.1, p.2)

/-- Queue.PeekByLookupID (queue.go). -/
def Queue.PeekByLookupID (q : Queue) (id : Nat) (opts : List PeekByLookupIDOptionT) :
    GoResult Message × List SvcCall :=
  let p := Queue.peek q ("PeekByLookupID") [GoVal.ofU64 id, GoVal.peekByIDOpts opts]
  (toMessageResult
    (fun e => s!"go-msmq: PeekByLookupID({id}) failed to peek message by lookup id: {e}")
    p.1, p.2)

/-- Queue.PeekCurrent (queue.go). -/
def Queue.PeekCurrent (q : Queue) (opts : List PeekOptionT) :
    GoResult Message × List SvcCall :=
  let p := Queue.peek q ("PeekCurrent") [GoVal.peekOpts opts]
  (toMessageResult
    (fun e => "go-msmq: PeekCurrent() failed to peek current message: " ++ e) p.1, p.2)

/-- Queue.PeekFirstByLookupID (queue.go). -/
def Queue.PeekFirstByLookupID (q : Queue) (opts : List PeekByLookupIDOptionT) :
    GoResult Message × List SvcCall :=
  let p := Queue.peek q ("PeekFirstByLookupID") [GoVal.peekByIDOpts opts]
  (toMessageResult
    (fun e => "go-msmq: PeekFirstByLookupID() failed to peek first message by lookup id: " ++ e)
    p.1, p.2)

/-- Queue.PeekLastByLookupID (queue.go). -/
def Queue.PeekLastByLookupID (q : Queue) (opts : List PeekByLookupIDOptionT) :
    GoResult Message × List SvcCall :=
  let p := Queue.peek q ("PeekLastByLookupID") [GoVal.peekByIDOpts opts]
  (toMessageResult
    (fun e => "go-msmq: PeekLastByLookupID() failed to peek last message by lookup id: " ++ e)
    p.1, p.2)

/-- Queue.PeekNext (queue.go). -/
def Queue.PeekNext (q : Queue) (opts : List PeekOptionT) :
    GoResult Message × List SvcCall :=
  let p := Queue.peek q ("PeekNext") [GoVal.peekOpts opts]
  (toMessageResult (fun e => "go-msmq: failed to peek next message: " ++ e) p.1, p.2)

/-- Queue.PeekNextByLookupID (queue.go). -/
def Queue.PeekNextByLookupID (q : Queue) (id : Nat) (opts : List PeekByLookupIDOptionT) :
    GoResult Message × List SvcCall :=
  let p := Queue.peek q ("PeekNextByLookupID") [GoVal.ofU64 id, GoVal.peekByIDOpts opts]
  (toMessageResult
    (fun e => s!"go-msmq: PeekNextByLookupID({id}) failed to peek next message by lookup id: {e}")
    p.1, p.2)

/-- Queue.PeekPreviousByLookupID (queue.go). -/
def Queue.PeekPreviousByLookupID (q : Queue) (id : Nat)
    (opts : List PeekByLookupIDOptionT) : GoResult Message × List SvcCall :=
  let p := Queue.peek q ("PeekPreviousByLookupID") [GoVal.ofU64 id, GoVal.peekByIDOpts opts]
  (toMessageResult
    (fun e => s!"go-msmq: PeekPreviousByLookupID({id}) failed to peek previous message by lookup id: {e}")
    p.1, p.2)

/-- Queue.Receive (queue.go): returns the dispatcher error unchanged. -/
def Queue.Receive (q : Queue) (opts : List ReceiveOptionT) :
    GoResult Message × List SvcCall :=
  let p := Queue.receive q ("Receive") [GoVal.recvOpts opts]
  (toMessageResult (fun e => e) p.1, p.2)

/-- Queue.ReceiveByLookupID (queue.go). -/
def Queue.ReceiveByLookupID (q : Queue) (id : Nat)
    (opts : List ReceiveByLookupIDOptionT) : GoResult Message × List SvcCall :=
  let p := Queue.receive q ("ReceiveByLookupID") [GoVal.ofU64 id, GoVal.recvByIDOpts opts]
  (toMessageResult
    (fun e => s!"go-msmq: ReceiveByLookupID({id}) failed to receive messages by lookup id: {e}")
    p.1, p.2)

/-- Queue.ReceiveCurrent (queue.go). -/
def Queue.ReceiveCurrent (q : Queue) (opts : List ReceiveOptionT) :
    GoResult Message × List SvcCall :=
  let p := Queue.receive q ("ReceiveCurrent") [GoVal.recvOpts opts]
  (toMessageResult
    (fun e => "go-msmq: ReceiveCurrent() failed to receive message at the current cursor location: " ++ e)
    p.1, p.2)

/-- Queue.ReceiveFirstByLookupID (queue.go). -/
def Queue.ReceiveFirstByLookupID (q : Queue) (opts : List ReceiveByLookupIDOptionT) :
    GoResult Message × List SvcCall :=
  let p := Queue.receive q ("ReceiveFirstByLookupID") [GoVal.recvByIDOpts opts]
  (toMessageResult
    (fun e => "go-msmq: ReceiveFirstByLookupID() failed to receive first message by lookup id: " ++ e)
    p.1, p.2)

/-- Queue.ReceiveLastByLookupID (queue.go). -/
def Queue.ReceiveLastByLookupID (q : Queue) (opts : List ReceiveByLookupIDOptionT) :
    GoResult Message × List SvcCall :=
  let p := Queue.receive q ("ReceiveLastByLookupID") [GoVal.recvByIDOpts opts]
  (toMessageResult
    (fun e => "go-msmq: ReceiveLastByLookupID() failed to receive last message by lookup id: " ++ e)
    p.1, p.2)

/-- Queue.Purge (queue.go): checks the open state, then deletes all
messages through the service. -/
def Queue.Purge (q : Queue) : GoResult Unit × List SvcCall :=
  match Queue.IsOpen q with
  | .error e => (.error ("go-msmq: failed to purge messages: " ++ e), [])
  | .ok false => (.error ("go-msmq: failed to purge messages: " ++ notOpenErr), [])
  | .ok true =>
    match q.dispatch.call ("Purge") [] with
    | .error e => (.error ("go-msmq: Purge() failed to delete all messages: " ++ e), [⟨"Purge", []⟩])
    | .ok _ => (.ok (), [⟨"Purge", []⟩])

/-- Oracle for the COM IDispatch behind a QueueInfo: property reads and
method calls (queue_info.go). -/
structure IDispatchQI where
  getProp : String → Except GoErr VARIANT
  call : String → List Arg → Except GoErr VARIANT

/-- QueueInfo provides queue management for a single queue (queue_info.go). -/
structure QueueInfo where
  dispatch : IDispatchQI

/-- Error text produced when `Create` finds the path name empty
(queue_info.go). -/
def pathNotSetErr : GoErr := "Exception occurred. (The queue path name is not set. )"

/-- QueueInfo.PathName (queue_info.go): reads the `PathName` property,
wraps a read failure, and asserts the value to a string (a non-string
value makes the Go type assertion panic). -/
def QueueInfo.PathName (qi : QueueInfo) : GoResult GoStr :=
  match qi.dispatch.getProp ("PathName") with
  | .error e => .error ("go-msmq: failed to get PathName: " ++ e)
  | .ok res =>
    match res.val with
    | .vstr s => .ok s
    | _ => .panic

/-- CreateQueueOption (queue_info.go), embedded like `PeekOptionT`. -/
inductive CreateQueueOptionT where
  | withTransactional (transactional : Bool)
  | withWorldReadable (worldReadable : Bool)
  deriving DecidableEq, Repr

/-- createQueueOptions (queue_info.go). -/
structure createQueueOptions where
  transactional : Bool
  worldReadable : Bool
  deriving DecidableEq, Repr

/-- Action of a `CreateQueueOption`'s `set` closure. -/
def CreateQueueOptionT.set : CreateQueueOptionT → createQueueOptions → createQueueOptions
  | .withTransactional t, o => ⟨t, o.worldReadable⟩
  | .withWorldReadable w, o => ⟨o.transactional, w⟩

/-- Defaults of `createQueueOptions` as written in `Create`:
transactional false, worldReadable false. -/
def createQueueDefaults : createQueueOptions := ⟨false, false⟩

/-- Materialization of `createQueueOptions` from the declared defaults. -/
def buildCreateQueueOptions (opts : List CreateQueueOptionT) : createQueueOptions :=
  opts.foldl (fun acc o => o.set acc) createQueueDefaults

/-- QueueInfo.Create (queue_info.go): requires a non-empty path name, then
invokes the service's Create with the transactional and worldReadable
flags.  Returns the outcome together with the list of CallMethod calls
issued. -/
def QueueInfo.Create (qi : QueueInfo) (opts : List CreateQueueOptionT) :
    GoResult Unit × List SvcCall :=
  match QueueInfo.PathName qi with
  | .error e => (.error ("go-msmq: failed to create queue: " ++ e), [])
  | .panic => (.panic, [])
  | .ok s =>
    if s = [] then
      (.error ("go-msmq: failed to create queue: " ++ pathNotSetErr), [])
    else
      let o := opts.foldl (fun acc c => c.set acc) createQueueDefaults
      let args := [Arg.ofBool o.transactional, Arg.ofBool o.worldReadable]
      match qi.dispatch.call ("Create") args with
      | .error e =>
        let t := o.transactional
        let w := o.worldReadable
        (.error (s!"go-msmq: Create({t}, {w}) failed to create queue: {e}"), [⟨"Create", args⟩])
      | .ok _ => (.ok (), [⟨"Create", args⟩])

/-- Property store of the MSMQMessage COM object behind a Message.
Modelled from the spec: the external COM/automation object is a black box
behind a narrow interface; here it is a store where `PutProperty` writes a
property and `GetProperty` reads it back. -/
def MsgProps := String → Except GoErr VARIANT

/-- Message.SetBody (message.go): `PutProperty("Body", s)` stores the
string payload; in the property-store model of the collaborator the write
succeeds and a string is stored as a `VT_BSTR` variant. -/
def Message.SetBody (st : MsgProps) (s : GoStr) : MsgProps :=
  fun p => if p = "Body" then Except.ok ⟨VT_BSTR, VarValue.vstr s⟩ else st p

/-- Message.Body (message.go): reads the `Body` property; if the variant
type carries the `VT_ARRAY` bit flag the payload is converted through
SafeArray to a byte array and reinterpreted as a string (identity on the
bytes), otherwise the value is asserted to a string. -/
def Message.Body (st : MsgProps) : GoResult GoStr :=
  match st ("Body") with
  | .error e => .error e
  | .ok res =>
    if res.vt &&& VT_ARRAY ≠ 0 then
      match res.val with
      | .vbytes b => .ok b
      | _ => .panic
    else
      match res.val with
      | .vstr s => .ok s
      | _ => .panic

/-- ErrMSMQNotInstalled (queue_info.go). -/
def ErrMSMQNotInstalled : GoErr :=
  "go-msmq: message queuing has not been installed on this computer"

/-- Model of an `ole.IUnknown` object: the outcome of querying the
IDispatch interface on it. -/
structure IUnknownObj where
  qi : Except GoErr Nat

/-- Result of `oleutil.CreateObject`: the returned object (nil when
creation failed) and the returned error. -/
structure CreateObjectResult where
  unknown : Option IUnknownObj
  createErr : Option GoErr

/-- Check `err != nil && err.Error() == "Invalid class string"` shared by
NewMessage and NewQueueInfo. -/
def invalidClassCheck : Option GoErr → Bool
  | some e => e = "Invalid class string"
  | none => false

/-- Interface query step shared by NewMessage and NewQueueInfo: calling
QueryInterface on a nil IUnknown dereferences a nil pointer (panic). -/
def comQueryStep (u : Option IUnknownObj) : GoResult Nat :=
  match u with
  | none => .panic
  | some obj =>
    match obj.qi with
    | .error e => .error e
    | .ok d => .ok d

/-- NewMessage (message.go): creates the MSMQ.MSMQMessage COM object and
queries its IDispatch interface.  The result is the dispatch pointer. -/
def NewMessage (r : CreateObjectResult) : GoResult Nat :=
  if invalidClassCheck r.createErr then .error ErrMSMQNotInstalled
  else comQueryStep r.unknown

/-- Effect of one QueueInfoOption's `set` on the constructed QueueInfo:
each exported option invokes a property setter against the dispatch, which
either succeeds or reports an error (queue_info.go). -/
def QueueInfoOptionEff := Nat → Except GoErr Unit

/-- Application of the QueueInfoOption list in NewQueueInfo, stopping at
the first failing option. -/
def applyQueueInfoOpts (d : Nat) : List QueueInfoOptionEff → Except GoErr Unit
  | [] => .ok ()
  | o :: rest =>
    match o d with
    | .error e => .error e
    | .ok _ => applyQueueInfoOpts d rest

/-- NewQueueInfo (queue_info.go): creates the MSMQ.MSMQQueueInfo COM
object, queries its IDispatch interface and applies the options. -/
def NewQueueInfo (r : CreateObjectResult) (opts : List QueueInfoOptionEff) :
    GoResult Nat :=
  if invalidClassCheck r.createErr then .error ErrMSMQNotInstalled
  else
    match comQueryStep r.unknown with
    | .panic => .panic
    | .error e => .error e
    | .ok d =>
      match applyQueueInfoOpts d opts with
      | .error e => .error ("msmq: failed to create new QueueInfo: " ++ e)
      | .ok _ => .ok d

/-- Spec-level queue handle. Modelled from the spec: `Queue.Reset` and the
cursor it clears are absent from src/ (only the example program calls
`Reset`); this state machine follows spec sections 3 (Queue Handle), 4.1
(Cursor Navigator) and 8: an open flag, the messages in queue order, and
an optional cursor position. -/
structure SpecHandle where
  isOpen : Bool
  msgs : List GoStr
  cursor : Option Nat
  deriving DecidableEq, Repr

/-- Cursor-relative navigation steps of the spec's Cursor Navigator:
"Current" reads at the existing position, creating one at the front if
none exists; "Next" advances the position first. -/
inductive NavOp where
  | currentNav
  | nextNav
  deriving DecidableEq, Repr

/-- Modelled from the spec: effect of one cursor-relative peek navigation
step on the handle's cursor (peeks are non-destructive, so the message
list is untouched). -/
def SpecHandle.applyNav : SpecHandle → NavOp → SpecHandle
  | q, .currentNav => ⟨q.isOpen, q.msgs, some (q.cursor.getD 0)⟩
  | q, .nextNav =>
    match q.cursor with
    | none => ⟨q.isOpen, q.msgs, some 0⟩
    | some n => ⟨q.isOpen, q.msgs, some (n + 1)⟩

/-- Modelled from the spec: `Reset` discards cursor-relative position
without closing the handle. -/
def SpecHandle.Reset (q : SpecHandle) : SpecHandle := ⟨q.isOpen, q.msgs, none⟩

/-- Modelled from the spec: `Receive` on an open handle removes and
returns the logically first message; on a closed handle it fails with the
"not open" condition. -/
def SpecHandle.ReceiveSpec (q : SpecHandle) : GoResult GoStr × SpecHandle :=
  if q.isOpen then
    match q.msgs with
    | [] => (.error ("timeout"), q)
    | m :: rest => (.ok m, ⟨q.isOpen, rest, q.cursor⟩)
  else (.error notOpenErr, q)

/-- Modelled from the spec: cursor-relative `PeekCurrent` reads at the
existing position, creating one at the front if none exists. -/
def SpecHandle.PeekCurrentSpec (q : SpecHandle) : GoResult GoStr × SpecHandle :=
  if q.isOpen then
    let pos := q.cursor.getD 0
    match q.msgs.get? pos with
    | some m => (.ok m, ⟨q.isOpen, q.msgs, some pos⟩)
    | none => (.error ("timeout"), ⟨q.isOpen, q.msgs, some pos⟩)
  else (.error notOpenErr, q)

/-- Decidable substring test on Go error text. -/
def containsStr (hay pat : String) : Bool :=
  decide (List.IsInfix pat.toList hay.toList)

/-- Property that a retrieval call returned either a message value or a
non-nil error (and in particular neither panicked nor fell through the
dispatcher's default branch). -/
def returnsMsgOrErr (r : GoResult Message) : Prop :=
  (∃ m, r = GoResult.ok m) ∨ (∃ e, r = GoResult.error e)

/-- Queue whose dispatch oracle reports a fixed open state and answers
every CallMethod with a fixed result. -/
def constQueue (o : Except GoErr Bool) (r : Except GoErr VARIANT) : Queue :=
  ⟨⟨o, fun _ _ => r⟩⟩

/-- Sequence of independent `Peek` calls against the same queue handle,
one per caller-supplied option list. -/
def peekSeq (q : Queue) (l : List (List PeekOptionT)) :
    List (GoResult Message × List SvcCall) :=
  l.map (Queue.Peek q)

/-- Field selector written by a `PeekOption` (used to state that a later
option overrides an earlier one for the same field). -/
def PeekOptionT.fieldIdx : PeekOptionT → Nat
  | .withWantDestinationQueue _ => 0
  | .withWantBody _ => 1
  | .withTimeout _ => 2
  | .withWantConnectorType _ => 3

/-- Field selector written by a `PeekByLookupIDOption`. -/
def PeekByLookupIDOptionT.fieldIdx : PeekByLookupIDOptionT → Nat
  | .withWantDestinationQueue _ => 0
  | .withWantBody _ => 1
  | .withWantConnectorType _ => 2

/-- Field selector written by a `ReceiveOption`. -/
def ReceiveOptionT.fieldIdx : ReceiveOptionT → Nat
  | .withTransaction _ => 0
  | .withWantDestinationQueue _ => 1
  | .withWantBody _ => 2
  | .withTimeout _ => 3
  | .withWantConnectorType _ => 4

/-- Field selector written by a `ReceiveByLookupIDOption`. -/
def ReceiveByLookupIDOptionT.fieldIdx : ReceiveByLookupIDOptionT → Nat
  | .withTransaction _ => 0
  | .withWantDestinationQueue _ => 1
  | .withWantBody _ => 2
  | .withWantConnectorType _ => 3

/-- A dispatcher case that reached the service returns a message variant or
an error, and the wrapper turns that into a message value or an error. -/
theorem msgOrErr_of_call (w : GoErr → GoErr) (r : Except GoErr VARIANT) :
    returnsMsgOrErr (toMessageResult w (outcomeOfCall r)) := by
  cases r <;> simp [toMessageResult, outcomeOfCall, returnsMsgOrErr]

/-- A dispatcher case that reached the service never produces the default
branch's empty outcome. -/
theorem outcomeOfCall_ne_nilNil (r : Except GoErr VARIANT) :
    outcomeOfCall r ≠ DispatchOutcome.nilNil := by
  cases r <;> simp [outcomeOfCall]

/-- C1: with the handle's open check reporting the queue closed, every
retrieval operation (Peek, PeekCurrent, PeekNext, PeekByLookupID,
PeekFirstByLookupID, PeekLastByLookupID, PeekNextByLookupID,
PeekPreviousByLookupID, Receive, ReceiveCurrent, ReceiveByLookupID,
ReceiveFirstByLookupID, ReceiveLastByLookupID) and Purge fails with the
fixed "queue is not open" state condition — possibly wrapped with the
operation's context — and the list of calls issued to the underlying
service is empty, so the failure is decided locally and can never be a
service-reported timeout or not-found. -/
theorem closed_handle_retrieval_fails_with_state_error
    (q : Queue) (h : q.dispatch.isOpen2 = Except.ok false)
    (popts : List PeekOptionT) (bopts : List PeekByLookupIDOptionT)
    (ropts : List ReceiveOptionT) (rbopts : List ReceiveByLookupIDOptionT)
    (id : Nat) :
    Queue.Peek q popts = (.error notOpenErr, [])
    ∧ Queue.PeekByLookupID q id bopts
        = (.error (s!"go-msmq: PeekByLookupID({id}) failed to peek message by lookup id: {notOpenErr}"), [])
    ∧ Queue.PeekCurrent q popts
        = (.error ("go-msmq: PeekCurrent() failed to peek current message: " ++ notOpenErr), [])
    ∧ Queue.PeekFirstByLookupID q bopts
        = (.error ("go-msmq: PeekFirstByLookupID() failed to peek first message by lookup id: " ++ notOpenErr), [])
    ∧ Queue.PeekLastByLookupID q bopts
        = (.error ("go-msmq: PeekLastByLookupID() failed to peek last message by lookup id: " ++ notOpenErr), [])
    ∧ Queue.PeekNext q popts
        = (.error ("go-msmq: failed to peek next message: " ++ notOpenErr), [])
    ∧ Queue.PeekNextByLookupID q id bopts
        = (.error (s!"go-msmq: PeekNextByLookupID({id}) failed to peek next message by lookup id: {notOpenErr}"), [])
    ∧ Queue.PeekPreviousByLookupID q id bopts
        = (.error (s!"go-msmq: PeekPreviousByLookupID({id}) failed to peek previous message by lookup id: {notOpenErr}"), [])
    ∧ Queue.Receive q ropts = (.error notOpenErr, [])
    ∧ Queue.ReceiveByLookupID q id rbopts
        = (.error (s!"go-msmq: ReceiveByLookupID({id}) failed to receive messages by lookup id: {notOpenErr}"), [])
    ∧ Queue.ReceiveCurrent q ropts
        = (.error ("go-msmq: ReceiveCurrent() failed to receive message at the current cursor location: " ++ notOpenErr), [])
    ∧ Queue.ReceiveFirstByLookupID q rbopts
        = (.error ("go-msmq: ReceiveFirstByLookupID() failed to receive first message by lookup id: " ++ notOpenErr), [])
    ∧ Queue.ReceiveLastByLookupID q rbopts
        = (.error ("go-msmq: ReceiveLastByLookupID() failed to receive last message by lookup id: " ++ notOpenErr), [])
    ∧ Queue.Purge q
        = (.error ("go-msmq: failed to purge messages: " ++ notOpenErr), []) := by
  refine ⟨?_, ?_, ?_, ?_, ?_, ?_, ?_, ?_, ?_, ?_, ?_, ?_, ?_, ?_⟩ <;>
    simp [Queue.Peek, Queue.PeekByLookupID, Queue.PeekCurrent, Queue.PeekFirstByLookupID,
      Queue.PeekLastByLookupID, Queue.PeekNext, Queue.PeekNextByLookupID,
      Queue.PeekPreviousByLookupID, Queue.Receive, Queue.ReceiveByLookupID,
      Queue.ReceiveCurrent, Queue.ReceiveFirstByLookupID, Queue.ReceiveLastByLookupID,
      Queue.Purge, Queue.peek, Queue.receive, Queue.IsOpen, h, toMessageResult]

/-- Witness for C1 at a concrete closed queue handle. -/
theorem closed_handle_retrieval_fails_with_state_error_witness :
    Queue.Peek (constQueue (Except.ok false) (Except.ok ⟨0, VarValue.vempty⟩)) []
      = (.error notOpenErr, []) :=
  (closed_handle_retrieval_fails_with_state_error
    (constQueue (Except.ok false) (Except.ok ⟨0, VarValue.vempty⟩)) rfl [] [] [] [] 7).1

/-- C2: with no caller-supplied options and the handle open, the values
passed to the underlying service are exactly the declared defaults:
wantDestinationQueue false, wantBody true, wantConnectorType false, a
timeout of 2 to the 31st minus 1 milliseconds for Peek, PeekCurrent,
PeekNext, Receive and ReceiveCurrent, and transaction level MTS for every
receive-family operation. -/
theorem retrieval_defaults_passed_to_service
    (q : Queue) (h : q.dispatch.isOpen2 = Except.ok true) (id : Nat) :
    (Queue.Peek q []).2
      = [⟨"Peek", [Arg.ofBool false, Arg.ofBool true, Arg.ofInt (2 ^ 31 - 1), Arg.ofBool false]⟩]
    ∧ (Queue.PeekCurrent q []).2
      = [⟨"PeekCurrent", [Arg.ofBool false, Arg.ofBool true, Arg.ofInt (2 ^ 31 - 1), Arg.ofBool false]⟩]
    ∧ (Queue.PeekNext q []).2
      = [⟨"PeekNext", [Arg.ofBool false, Arg.ofBool true, Arg.ofInt (2 ^ 31 - 1), Arg.ofBool false]⟩]
    ∧ (Queue.PeekByLookupID q id []).2
      = [⟨"PeekByLookupID", [Arg.ofU64 id, Arg.ofBool false, Arg.ofBool true, Arg.ofBool false]⟩]
    ∧ (Queue.PeekNextByLookupID q id []).2
      = [⟨"PeekNextByLookupID", [Arg.ofU64 id, Arg.ofBool false, Arg.ofBool true, Arg.ofBool false]⟩]
    ∧ (Queue.PeekPreviousByLookupID q id []).2
      = [⟨"PeekPreviousByLookupID", [Arg.ofU64 id, Arg.ofBool false, Arg.ofBool true, Arg.ofBool false]⟩]
    ∧ (Queue.PeekFirstByLookupID q []).2
      = [⟨"PeekFirstByLookupID", [Arg.ofBool false, Arg.ofBool true, Arg.ofBool false]⟩]
    ∧ (Queue.PeekLastByLookupID q []).2
      = [⟨"PeekLastByLookupID", [Arg.ofBool false, Arg.ofBool true, Arg.ofBool false]⟩]
    ∧ (Queue.Receive q []).2
      = [⟨"Receive", [Arg.ofInt TransactionLevel.MTS.toInt, Arg.ofBool false, Arg.ofBool true,
          Arg.ofInt (2 ^ 31 - 1), Arg.ofBool false]⟩]
    ∧ (Queue.ReceiveCurrent q []).2
      = [⟨"ReceiveCurrent", [Arg.ofInt TransactionLevel.MTS.toInt, Arg.ofBool false, Arg.ofBool true,
          Arg.ofInt (2 ^ 31 - 1), Arg.ofBool false]⟩]
    ∧ (Queue.ReceiveByLookupID q id []).2
      = [⟨"ReceiveByLookupID", [Arg.ofU64 id, Arg.ofInt TransactionLevel.MTS.toInt, Arg.ofBool false,
          Arg.ofBool true, Arg.ofBool false]⟩]
    ∧ (Queue.ReceiveFirstByLookupID q []).2
      = [⟨"ReceiveFirstByLookupID", [Arg.ofInt TransactionLevel.MTS.toInt, Arg.ofBool false,
          Arg.ofBool true, Arg.ofBool false]⟩]
    ∧ (Queue.ReceiveLastByLookupID q []).2
      = [⟨"ReceiveLastByLookupID", [Arg.ofInt TransactionLevel.MTS.toInt, Arg.ofBool false,
          Arg.ofBool true, Arg.ofBool false]⟩]
    ∧ TransactionLevel.MTS.toInt = 1 := by
  refine ⟨?_, ?_, ?_, ?_, ?_, ?_, ?_, ?_, ?_, ?_, ?_, ?_, ?_, ?_⟩ <;>
    simp [Queue.Peek, Queue.PeekByLookupID, Queue.PeekCurrent, Queue.PeekFirstByLookupID,
      Queue.PeekLastByLookupID, Queue.PeekNext, Queue.PeekNextByLookupID,
      Queue.PeekPreviousByLookupID, Queue.Receive, Queue.ReceiveByLookupID,
      Queue.ReceiveCurrent, Queue.ReceiveFirstByLookupID, Queue.ReceiveLastByLookupID,
      Queue.peek, Queue.receive, Queue.IsOpen, h, peekDefaults, peekByLookupIDDefaults,
      receiveDefaults, receiveByLookupIDDefaults, peekArgsList, peekByIDArgsList,
      peekFirstLastArgsList, receiveArgsList, receiveByIDArgsList, receiveFirstLastArgsList,
      TransactionLevel.toInt]

/-- Witness for C2 at a concrete open queue handle. -/
theorem retrieval_defaults_passed_to_service_witness :
    (Queue.Peek (constQueue (Except.ok true) (Except.ok ⟨0, VarValue.vempty⟩)) []).2
      = [⟨"Peek", [Arg.ofBool false, Arg.ofBool true, Arg.ofInt (2 ^ 31 - 1), Arg.ofBool false]⟩] :=
  (retrieval_defaults_passed_to_service
    (constQueue (Except.ok true) (Except.ok ⟨0, VarValue.vempty⟩)) rfl 7).1

/-- Applying two `PeekOption` setters for the same field keeps only the
later one's value. -/
theorem peekOption_set_override (o₁ o₂ : PeekOptionT) (h : o₁.fieldIdx = o₂.fieldIdx)
    (x : peekOptions) : o₂.set (o₁.set x) = o₂.set x := by
  cases o₁ <;> cases o₂ <;>
    first
      | rfl
      | simp [PeekOptionT.fieldIdx] at h

/-- Applying two `PeekByLookupIDOption` setters for the same field keeps
only the later one's value. -/
theorem peekByLookupIDOption_set_override (o₁ o₂ : PeekByLookupIDOptionT)
    (h : o₁.fieldIdx = o₂.fieldIdx) (x : peekByLookupIDOptions) :
    o₂.set (o₁.set x) = o₂.set x := by
  cases o₁ <;> cases o₂ <;>
    first
      | rfl
      | simp [PeekByLookupIDOptionT.fieldIdx] at h

/-- Applying two `ReceiveOption` setters for the same field keeps only the
later one's value. -/
theorem receiveOption_set_override (o₁ o₂ : ReceiveOptionT)
    (h : o₁.fieldIdx = o₂.fieldIdx) (x : receiveOptions) :
    o₂.set (o₁.set x) = o₂.set x := by
  cases o₁ <;> cases o₂ <;>
    first
      | rfl
      | simp [ReceiveOptionT.fieldIdx] at h

/-- Applying two `ReceiveByLookupIDOption` setters for the same field
keeps only the later one's value. -/
theorem receiveByLookupIDOption_set_override (o₁ o₂ : ReceiveByLookupIDOptionT)
    (h : o₁.fieldIdx = o₂.fieldIdx) (x : receiveByLookupIDOptions) :
    o₂.set (o₁.set x) = o₂.set x := by
  cases o₁ <;> cases o₂ <;>
    first
      | rfl
      | simp [ReceiveByLookupIDOptionT.fieldIdx] at h

/-- C3: every retrieval call materializes a fresh option set: the
arguments it hands to the service are computed by folding the
caller-supplied options, in declaration order, over the declared defaults
(shown for a representative of each dispatcher case); for two options
writing the same field the later one wins; and a sequence of calls gives
each call the option set built from its own options alone, so nothing
carries over between calls. -/
theorem retrieval_options_fresh_and_ordered
    (q : Queue) (h : q.dispatch.isOpen2 = Except.ok true) (id : Nat)
    (popts pre : List PeekOptionT) (o₁ o₂ : PeekOptionT)
    (bopts bpre : List PeekByLookupIDOptionT) (b₁ b₂ : PeekByLookupIDOptionT)
    (ropts rpre : List ReceiveOptionT) (r₁ r₂ : ReceiveOptionT)
    (vopts vpre : List ReceiveByLookupIDOptionT) (v₁ v₂ : ReceiveByLookupIDOptionT) :
    (Queue.Peek q popts).2 = [⟨"Peek", peekArgsList (buildPeekOptions popts)⟩]
    ∧ (Queue.PeekByLookupID q id bopts).2
        = [⟨"PeekByLookupID", peekByIDArgsList id (buildPeekByLookupIDOptions bopts)⟩]
    ∧ (Queue.PeekFirstByLookupID q bopts).2
        = [⟨"PeekFirstByLookupID", peekFirstLastArgsList (buildPeekByLookupIDOptions bopts)⟩]
    ∧ (Queue.Receive q ropts).2 = [⟨"Receive", receiveArgsList (buildReceiveOptions ropts)⟩]
    ∧ (Queue.ReceiveByLookupID q id vopts).2
        = [⟨"ReceiveByLookupID", receiveByIDArgsList id (buildReceiveByLookupIDOptions vopts)⟩]
    ∧ (Queue.ReceiveFirstByLookupID q vopts).2
        = [⟨"ReceiveFirstByLookupID", receiveFirstLastArgsList (buildReceiveByLookupIDOptions vopts)⟩]
    ∧ (o₁.fieldIdx = o₂.fieldIdx →
        buildPeekOptions (pre ++ [o₁, o₂]) = buildPeekOptions (pre ++ [o₂]))
    ∧ (b₁.fieldIdx = b₂.fieldIdx →
        buildPeekByLookupIDOptions (bpre ++ [b₁, b₂]) = buildPeekByLookupIDOptions (bpre ++ [b₂]))
    ∧ (r₁.fieldIdx = r₂.fieldIdx →
        buildReceiveOptions (rpre ++ [r₁, r₂]) = buildReceiveOptions (rpre ++ [r₂]))
    ∧ (v₁.fieldIdx = v₂.fieldIdx →
        buildReceiveByLookupIDOptions (vpre ++ [v₁, v₂]) = buildReceiveByLookupIDOptions (vpre ++ [v₂]))
    ∧ peekSeq q [pre, popts] = [Queue.Peek q pre, Queue.Peek q popts] := by
  refine ⟨?_, ?_, ?_, ?_, ?_, ?_, ?_, ?_, ?_, ?_, ?_⟩
  · simp [Queue.Peek, Queue.peek, Queue.IsOpen, h, buildPeekOptions]
  · simp [Queue.PeekByLookupID, Queue.peek, Queue.IsOpen, h, buildPeekByLookupIDOptions]
  · simp [Queue.PeekFirstByLookupID, Queue.peek, Queue.IsOpen, h, buildPeekByLookupIDOptions]
  · simp [Queue.Receive, Queue.receive, Queue.IsOpen, h, buildReceiveOptions]
  · simp [Queue.ReceiveByLookupID, Queue.receive, Queue.IsOpen, h, buildReceiveByLookupIDOptions]
  · simp [Queue.ReceiveFirstByLookupID, Queue.receive, Queue.IsOpen, h, buildReceiveByLookupIDOptions]
  · intro he
    simp [buildPeekOptions, List.foldl_append]
    exact peekOption_set_override o₁ o₂ he _
  · intro he
    simp [buildPeekByLookupIDOptions, List.foldl_append]
    exact peekByLookupIDOption_set_override b₁ b₂ he _
  · intro he
    simp [buildReceiveOptions, List.foldl_append]
    exact receiveOption_set_override r₁ r₂ he _
  · intro he
    simp [buildReceiveByLookupIDOptions, List.foldl_append]
    exact receiveByLookupIDOption_set_override v₁ v₂ he _
  · simp [peekSeq]

/-- Witness for C3: a later timeout option overrides an earlier one. -/
theorem retrieval_options_fresh_and_ordered_witness :
    buildPeekOptions ([] ++ [PeekOptionT.withTimeout 3, PeekOptionT.withTimeout 9])
      = buildPeekOptions ([] ++ [PeekOptionT.withTimeout 9]) :=
  (retrieval_options_fresh_and_ordered
    (constQueue (Except.ok true) (Except.ok ⟨0, VarValue.vempty⟩)) rfl 7
    [] [] (PeekOptionT.withTimeout 3) (PeekOptionT.withTimeout 9)
    [] [] (PeekByLookupIDOptionT.withWantBody false) (PeekByLookupIDOptionT.withWantBody true)
    [] [] (ReceiveOptionT.withTimeout 3) (ReceiveOptionT.withTimeout 9)
    [] [] (ReceiveByLookupIDOptionT.withWantBody false)
    (ReceiveByLookupIDOptionT.withWantBody true)).2.2.2.2.2.2.1 rfl

/-- C10: every exported retrieval method passes an action string matched
by a case of the internal peek/receive dispatcher, so for every dispatch
oracle and every argument list the dispatcher's default branch (which
returns neither a message nor an error) is not taken, and each exported
retrieval call returns either a message value or a non-nil error. -/
theorem exported_retrieval_actions_total
    (q : Queue) (id : Nat)
    (popts : List PeekOptionT) (bopts : List PeekByLookupIDOptionT)
    (ropts : List ReceiveOptionT) (rbopts : List ReceiveByLookupIDOptionT) :
    returnsMsgOrErr (Queue.Peek q popts).1
    ∧ returnsMsgOrErr (Queue.PeekByLookupID q id bopts).1
    ∧ returnsMsgOrErr (Queue.PeekCurrent q popts).1
    ∧ returnsMsgOrErr (Queue.PeekFirstByLookupID q bopts).1
    ∧ returnsMsgOrErr (Queue.PeekLastByLookupID q bopts).1
    ∧ returnsMsgOrErr (Queue.PeekNext q popts).1
    ∧ returnsMsgOrErr (Queue.PeekNextByLookupID q id bopts).1
    ∧ returnsMsgOrErr (Queue.PeekPreviousByLookupID q id bopts).1
    ∧ returnsMsgOrErr (Queue.Receive q ropts).1
    ∧ returnsMsgOrErr (Queue.ReceiveByLookupID q id rbopts).1
    ∧ returnsMsgOrErr (Queue.ReceiveCurrent q ropts).1
    ∧ returnsMsgOrErr (Queue.ReceiveFirstByLookupID q rbopts).1
    ∧ returnsMsgOrErr (Queue.ReceiveLastByLookupID q rbopts).1
    ∧ (Queue.peek q ("Peek") [GoVal.peekOpts popts]).1 ≠ DispatchOutcome.nilNil
    ∧ (Queue.peek q ("PeekCurrent") [GoVal.peekOpts popts]).1 ≠ DispatchOutcome.nilNil
    ∧ (Queue.peek q ("PeekNext") [GoVal.peekOpts popts]).1 ≠ DispatchOutcome.nilNil
    ∧ (Queue.peek q ("PeekByLookupID") [GoVal.ofU64 id, GoVal.peekByIDOpts bopts]).1 ≠ DispatchOutcome.nilNil
    ∧ (Queue.peek q ("PeekNextByLookupID") [GoVal.ofU64 id, GoVal.peekByIDOpts bopts]).1 ≠ DispatchOutcome.nilNil
    ∧ (Queue.peek q ("PeekPreviousByLookupID") [GoVal.ofU64 id, GoVal.peekByIDOpts bopts]).1 ≠ DispatchOutcome.nilNil
    ∧ (Queue.peek q ("PeekFirstByLookupID") [GoVal.peekByIDOpts bopts]).1 ≠ DispatchOutcome.nilNil
    ∧ (Queue.peek q ("PeekLastByLookupID") [GoVal.peekByIDOpts bopts]).1 ≠ DispatchOutcome.nilNil
    ∧ (Queue.receive q ("Receive") [GoVal.recvOpts ropts]).1 ≠ DispatchOutcome.nilNil
    ∧ (Queue.receive q ("ReceiveCurrent") [GoVal.recvOpts ropts]).1 ≠ DispatchOutcome.nilNil
    ∧ (Queue.receive q ("ReceiveByLookupID") [GoVal.ofU64 id, GoVal.recvByIDOpts rbopts]).1 ≠ DispatchOutcome.nilNil
    ∧ (Queue.receive q ("ReceiveFirstByLookupID") [GoVal.recvByIDOpts rbopts]).1 ≠ DispatchOutcome.nilNil
    ∧ (Queue.receive q ("ReceiveLastByLookupID") [GoVal.recvByIDOpts rbopts]).1 ≠ DispatchOutcome.nilNil := by
  refine ⟨?_, ?_, ?_, ?_, ?_, ?_, ?_, ?_, ?_, ?_, ?_, ?_, ?_, ?_, ?_, ?_, ?_, ?_, ?_, ?_, ?_,
    ?_, ?_, ?_, ?_, ?_⟩ <;>
  · cases h : q.dispatch.isOpen2 with
    | error e =>
      simp [Queue.Peek, Queue.PeekByLookupID, Queue.PeekCurrent, Queue.PeekFirstByLookupID,
        Queue.PeekLastByLookupID, Queue.PeekNext, Queue.PeekNextByLookupID,
        Queue.PeekPreviousByLookupID, Queue.Receive, Queue.ReceiveByLookupID,
        Queue.ReceiveCurrent, Queue.ReceiveFirstByLookupID, Queue.ReceiveLastByLookupID,
        Queue.peek, Queue.receive, Queue.IsOpen, h, toMessageResult, returnsMsgOrErr]
    | ok b =>
      cases b <;>
        simp [Queue.Peek, Queue.PeekByLookupID, Queue.PeekCurrent, Queue.PeekFirstByLookupID,
          Queue.PeekLastByLookupID, Queue.PeekNext, Queue.PeekNextByLookupID,
          Queue.PeekPreviousByLookupID, Queue.Receive, Queue.ReceiveByLookupID,
          Queue.ReceiveCurrent, Queue.ReceiveFirstByLookupID, Queue.ReceiveLastByLookupID,
          Queue.peek, Queue.receive, Queue.IsOpen, h] <;>
      first
        | exact msgOrErr_of_call _ _
        | exact outcomeOfCall_ne_nilNil _
        | simp [toMessageResult, outcomeOfCall, returnsMsgOrErr]

/-- C4: `QueueInfo.Create` fails with the "queue path name is not set"
configuration error and issues no service call exactly when the path name
read from the descriptor is empty; with a non-empty path name it invokes
the service's Create with the transactional and worldReadable flags
materialized from the options, and with no options those flags are the
defaults false and false. -/
theorem create_requires_path_name
    (qi : QueueInfo) (opts : List CreateQueueOptionT) (s : GoStr)
    (h : qi.dispatch.getProp ("PathName") = Except.ok ⟨VT_BSTR, VarValue.vstr s⟩) :
    (s = [] → QueueInfo.Create qi opts
        = (.error ("go-msmq: failed to create queue: " ++ pathNotSetErr), []))
    ∧ (s ≠ [] → (QueueInfo.Create qi opts).2
        = [⟨"Create", [Arg.ofBool (buildCreateQueueOptions opts).transactional,
            Arg.ofBool (buildCreateQueueOptions opts).worldReadable]⟩])
    ∧ buildCreateQueueOptions [] = ⟨false, false⟩ := by
  refine ⟨?_, ?_, rfl⟩
  · intro hs
    subst hs
    simp [QueueInfo.Create, QueueInfo.PathName, h]
  · intro hs
    cases hc : qi.dispatch.call ("Create")
        [Arg.ofBool (buildCreateQueueOptions opts).transactional,
         Arg.ofBool (buildCreateQueueOptions opts).worldReadable] <;>
      simp [QueueInfo.Create, QueueInfo.PathName, h, hs, buildCreateQueueOptions,
        createQueueDefaults] <;>
      simp [buildCreateQueueOptions, createQueueDefaults] at hc <;>
      simp [hc]

/-- Witness for C4 at a descriptor whose path name reads back empty. -/
theorem create_requires_path_name_witness :
    QueueInfo.Create
        ⟨⟨fun _ => Except.ok ⟨VT_BSTR, VarValue.vstr []⟩, fun _ _ => Except.ok ⟨0, VarValue.vempty⟩⟩⟩ []
      = (.error ("go-msmq: failed to create queue: " ++ pathNotSetErr), []) :=
  (create_requires_path_name
    ⟨⟨fun _ => Except.ok ⟨VT_BSTR, VarValue.vstr []⟩, fun _ _ => Except.ok ⟨0, VarValue.vempty⟩⟩⟩
    [] [] rfl).1 rfl

set_option maxRecDepth 100000 in
/-- C5 counterexample: when the underlying service fails, the
absolute-front `Peek` and `Receive` hand the service's error back
verbatim, with no wrapping that names the operation — refuting the claim
that every retrieval operation wraps service failures with the
operation's name. -/
theorem peek_receive_error_unwrapped_cex :
    (Queue.Peek (constQueue (Except.ok true) (Except.error ("boom"))) []).1
      = GoResult.error ("boom")
    ∧ (Queue.Receive (constQueue (Except.ok true) (Except.error ("boom"))) []).1
      = GoResult.error ("boom")
    ∧ containsStr ("boom") ("Peek") = false
    ∧ containsStr ("boom") ("Receive") = false := by
  refine ⟨rfl, rfl, by decide, by decide⟩

set_option maxRecDepth 100000 in
/-- C5 amended: every service failure is returned to the caller, never
swallowed; the lookup-id and cursor-relative retrieval operations wrap it
with text describing the operation and its salient arguments (the lookup
identifier included), while the absolute-front `Peek` and `Receive`
return the service's error unchanged.  The closing conjuncts check on a
concrete instance that a wrapped text indeed carries the operation name,
the lookup id and the original error. -/
theorem retrieval_error_wrapping_amended
    (e : GoErr) (id : Nat)
    (popts : List PeekOptionT) (bopts : List PeekByLookupIDOptionT)
    (ropts : List ReceiveOptionT) (rbopts : List ReceiveByLookupIDOptionT) :
    (Queue.Peek (constQueue (Except.ok true) (Except.error e)) popts).1
      = GoResult.error e
    ∧ (Queue.Receive (constQueue (Except.ok true) (Except.error e)) ropts).1
      = GoResult.error e
    ∧ (Queue.PeekByLookupID (constQueue (Except.ok true) (Except.error e)) id bopts).1
      = GoResult.error (s!"go-msmq: PeekByLookupID({id}) failed to peek message by lookup id: {e}")
    ∧ (Queue.PeekCurrent (constQueue (Except.ok true) (Except.error e)) popts).1
      = GoResult.error ("go-msmq: PeekCurrent() failed to peek current message: " ++ e)
    ∧ (Queue.PeekFirstByLookupID (constQueue (Except.ok true) (Except.error e)) bopts).1
      = GoResult.error ("go-msmq: PeekFirstByLookupID() failed to peek first message by lookup id: " ++ e)
    ∧ (Queue.PeekLastByLookupID (constQueue (Except.ok true) (Except.error e)) bopts).1
      = GoResult.error ("go-msmq: PeekLastByLookupID() failed to peek last message by lookup id: " ++ e)
    ∧ (Queue.PeekNext (constQueue (Except.ok true) (Except.error e)) popts).1
      = GoResult.error ("go-msmq: failed to peek next message: " ++ e)
    ∧ (Queue.PeekNextByLookupID (constQueue (Except.ok true) (Except.error e)) id bopts).1
      = GoResult.error (s!"go-msmq: PeekNextByLookupID({id}) failed to peek next message by lookup id: {e}")
    ∧ (Queue.PeekPreviousByLookupID (constQueue (Except.ok true) (Except.error e)) id bopts).1
      = GoResult.error (s!"go-msmq: PeekPreviousByLookupID({id}) failed to peek previous message by lookup id: {e}")
    ∧ (Queue.ReceiveByLookupID (constQueue (Except.ok true) (Except.error e)) id rbopts).1
      = GoResult.error (s!"go-msmq: ReceiveByLookupID({id}) failed to receive messages by lookup id: {e}")
    ∧ (Queue.ReceiveCurrent (constQueue (Except.ok true) (Except.error e)) ropts).1
      = GoResult.error ("go-msmq: ReceiveCurrent() failed to receive message at the current cursor location: " ++ e)
    ∧ (Queue.ReceiveFirstByLookupID (constQueue (Except.ok true) (Except.error e)) rbopts).1
      = GoResult.error ("go-msmq: ReceiveFirstByLookupID() failed to receive first message by lookup id: " ++ e)
    ∧ (Queue.ReceiveLastByLookupID (constQueue (Except.ok true) (Except.error e)) rbopts).1
      = GoResult.error ("go-msmq: ReceiveLastByLookupID() failed to receive last message by lookup id: " ++ e)
    ∧ containsStr (s!"go-msmq: ReceiveByLookupID({(42 : Nat)}) failed to receive messages by lookup id: boom")
        ("ReceiveByLookupID") = true
    ∧ containsStr (s!"go-msmq: ReceiveByLookupID({(42 : Nat)}) failed to receive messages by lookup id: boom")
        ("42") = true
    ∧ containsStr (s!"go-msmq: ReceiveByLookupID({(42 : Nat)}) failed to receive messages by lookup id: boom")
        ("boom") = true := by
  refine ⟨?_, ?_, ?_, ?_, ?_, ?_, ?_, ?_, ?_, ?_, ?_, ?_, ?_, by decide, by decide, by decide⟩ <;>
    simp [Queue.Peek, Queue.PeekByLookupID, Queue.PeekCurrent, Queue.PeekFirstByLookupID,
      Queue.PeekLastByLookupID, Queue.PeekNext, Queue.PeekNextByLookupID,
      Queue.PeekPreviousByLookupID, Queue.Receive, Queue.ReceiveByLookupID,
      Queue.ReceiveCurrent, Queue.ReceiveFirstByLookupID, Queue.ReceiveLastByLookupID,
      Queue.peek, Queue.receive, Queue.IsOpen, constQueue, toMessageResult, outcomeOfCall]

/-- C6: setting the body to a string and reading it back yields exactly
that string: the stored value is a plain string variant, so `Body` takes
the direct string path and returns it unchanged. -/
theorem set_body_then_body_round_trip (st : MsgProps) (s : GoStr) :
    Message.Body (Message.SetBody st s) = GoResult.ok s := by
  simp [Message.Body, Message.SetBody, VT_BSTR, VT_ARRAY]
  decide

/-- C7: `Body` distinguishes the stored variants by the VT_ARRAY bit
flag: with the flag set the payload's bytes are reinterpreted as a string
(the identity on the bytes), otherwise the variant's string value is
returned directly. -/
theorem body_array_flag_fallback (st : MsgProps) (v : VARIANT)
    (h : st ("Body") = Except.ok v) :
    (v.vt &&& VT_ARRAY ≠ 0 → ∀ b, v.val = VarValue.vbytes b → Message.Body st = GoResult.ok b)
    ∧ (v.vt &&& VT_ARRAY = 0 → ∀ s, v.val = VarValue.vstr s → Message.Body st = GoResult.ok s) := by
  constructor
  · intro hv b hb
    simp [Message.Body, h, hv, hb]
  · intro hv s hs
    simp [Message.Body, h, hv, hs]

/-- Witness for C7: an array-flagged byte payload and a string payload. -/
theorem body_array_flag_fallback_witness :
    Message.Body (fun _ => Except.ok ⟨VT_ARRAY, VarValue.vbytes [104, 105]⟩)
      = GoResult.ok [104, 105]
    ∧ Message.Body (fun _ => Except.ok ⟨VT_BSTR, VarValue.vstr [104]⟩)
      = GoResult.ok [104] := by
  constructor
  · exact (body_array_flag_fallback _ _ rfl).1 (by decide) _ rfl
  · exact (body_array_flag_fallback _ _ rfl).2 (by decide) _ rfl

/-- A cursor-relative peek navigation step changes neither the message
list nor the open flag of the spec-level handle. -/
theorem SpecHandle.applyNav_msgs_isOpen (q : SpecHandle) (n : NavOp) :
    (q.applyNav n).msgs = q.msgs ∧ (q.applyNav n).isOpen = q.isOpen := by
  cases n <;> cases hc : q.cursor <;> simp [SpecHandle.applyNav, hc]

/-- A sequence of cursor-relative peek navigation steps changes neither
the message list nor the open flag of the spec-level handle. -/
theorem SpecHandle.foldNav_msgs_isOpen (navs : List NavOp) (q : SpecHandle) :
    (navs.foldl SpecHandle.applyNav q).msgs = q.msgs
    ∧ (navs.foldl SpecHandle.applyNav q).isOpen = q.isOpen := by
  induction navs generalizing q with
  | nil => exact ⟨rfl, rfl⟩
  | cons n rest ih =>
    have h1 := SpecHandle.applyNav_msgs_isOpen q n
    have h2 := ih (q.applyNav n)
    exact ⟨by rw [List.foldl_cons, h2.1, h1.1], by rw [List.foldl_cons, h2.2, h1.2]⟩

/-- C8: after any sequence of cursor-relative navigation, `Reset`
discards the cursor position without closing the handle, and the next
`Receive` (and the next cursor-relative `Current` read) returns the first
message in the queue. -/
theorem reset_clears_cursor_receive_first
    (q : SpecHandle) (navs : List NavOp) (h : q.isOpen = true)
    (m : GoStr) (rest : List GoStr) (hm : q.msgs = m :: rest) :
    (SpecHandle.Reset (navs.foldl SpecHandle.applyNav q)).isOpen = true
    ∧ (SpecHandle.Reset (navs.foldl SpecHandle.applyNav q)).cursor = none
    ∧ (SpecHandle.ReceiveSpec (SpecHandle.Reset (navs.foldl SpecHandle.applyNav q))).1
        = GoResult.ok m
    ∧ (SpecHandle.PeekCurrentSpec (SpecHandle.Reset (navs.foldl SpecHandle.applyNav q))).1
        = GoResult.ok m := by
  have hf := SpecHandle.foldNav_msgs_isOpen navs q
  refine ⟨?_, rfl, ?_, ?_⟩
  · simp [SpecHandle.Reset, hf.2, h]
  · simp [SpecHandle.ReceiveSpec, SpecHandle.Reset, hf.1, hf.2, h, hm]
  · simp [SpecHandle.PeekCurrentSpec, SpecHandle.Reset, hf.1, hf.2, h, hm]

/-- Witness for C8 on a concrete handle after a navigation step. -/
theorem reset_clears_cursor_receive_first_witness :
    (SpecHandle.ReceiveSpec
        (SpecHandle.Reset ([NavOp.nextNav, NavOp.nextNav].foldl SpecHandle.applyNav
          ⟨true, [[104], [105]], some 5⟩))).1
      = GoResult.ok [104] :=
  (reset_clears_cursor_receive_first ⟨true, [[104], [105]], some 5⟩
    [NavOp.nextNav, NavOp.nextNav] rfl [104] [[105]] rfl).2.2.1

/-- C9: `NewMessage` and `NewQueueInfo` return `ErrMSMQNotInstalled`
when COM object creation fails with exactly the error text "Invalid
class string"; a creation failure with any other text is not reported —
construction behaves as if creation had not failed and proceeds to the
interface query. -/
theorem constructor_msmq_not_installed_detection
    (u : Option IUnknownObj) (opts : List QueueInfoOptionEff) (e : GoErr) :
    NewMessage ⟨u, some ("Invalid class string")⟩ = GoResult.error ErrMSMQNotInstalled
    ∧ NewQueueInfo ⟨u, some ("Invalid class string")⟩ opts = GoResult.error ErrMSMQNotInstalled
    ∧ (e ≠ "Invalid class string" →
        NewMessage ⟨u, some e⟩ = NewMessage ⟨u, none⟩
        ∧ NewQueueInfo ⟨u, some e⟩ opts = NewQueueInfo ⟨u, none⟩ opts) := by
  refine ⟨by simp [NewMessage, invalidClassCheck],
    by simp [NewQueueInfo, invalidClassCheck],
    fun he => ⟨by simp [NewMessage, invalidClassCheck, he],
      by simp [NewQueueInfo, invalidClassCheck, he]⟩⟩

/-- Witness for C9: a creation failure with text "boom" is ignored and
one with "Invalid class string" yields `ErrMSMQNotInstalled`. -/
theorem constructor_msmq_not_installed_detection_witness :
    NewMessage ⟨some ⟨Except.ok 7⟩, some ("boom")⟩ = NewMessage ⟨some ⟨Except.ok 7⟩, none⟩
    ∧ NewMessage ⟨some ⟨Except.ok 7⟩, some ("Invalid class string")⟩
        = GoResult.error ErrMSMQNotInstalled := by
  have h := constructor_msmq_not_installed_detection (some ⟨Except.ok 7⟩) [] ("boom")
  exact ⟨(h.2.2 (by decide)).1, h.1⟩

end GoMsmq
